import Mathlib

/-!
Verification of the Produto CRUD service (`src/main.py`, `src/schemas.py`,
`src/database.py`) against its specification.

The route handlers of `main.py` are embedded as pure functions over an
explicit store state.  The SQLAlchemy model module (`models.py`) is not part
of the sources, so the row type and the store-side id generation are
modelled from the specification's data-model section.
-/

namespace FastApiProdutos

/-- Modelled from the spec: the `Produto` row of the missing `models.py`
(section 3 of the spec): `id` integer system-generated primary identity,
`nome` text, `preco` floating-point number, `estoque` integer.  `preco` is
carried as a rational: the code never computes with it, it only stores and
returns it. -/
structure Produto where
  id : Int
  nome : String
  preco : Rat
  estoque : Int
deriving Repr, DecidableEq

/-- The input schema `ProdutoCreate` of `src/schemas.py`: `nome`, `preco`,
`estoque`; no `id` field. -/
structure ProdutoCreate where
  nome : String
  preco : Rat
  estoque : Int
deriving Repr, DecidableEq

/-- FastAPI's `HTTPException(status_code, detail)` as raised in `main.py`. -/
structure HTTPException where
  statusCode : Nat
  detail : String
deriving Repr, DecidableEq

/-- The fixed delete acknowledgment body `{"mensagem": ...}` of
`deletar_produto`. -/
structure MensagemResposta where
  mensagem : String
deriving Repr, DecidableEq

/-- The persistent store: the single `produtos` table as the list of its
rows, in storage order. -/
structure DB where
  rows : List Produto
deriving Repr, DecidableEq

/-- Modelled from the spec: the store-generated id for a fresh row
("system-generated, unique, assigned exactly once at creation"; the concrete
scenario gives id 1 on an empty store).  The embedded SQLite engine assigns
max existing id + 1, and 1 to the first row. -/
def nextId (rows : List Produto) : Int :=
  (rows.foldl (fun m r => max m r.id) 0) + 1

/-- `db.query(models.Produto).filter(models.Produto.id == produto_id).first()`:
first row of the table whose id matches, if any. -/
def findProduto (produto_id : Int) (db : DB) : Option Produto :=
  db.rows.find? (fun r => r.id == produto_id)

/-- Handler `criar_produto` of `main.py`: build a row from the validated
payload, insert it, refresh to obtain the generated id, return the entity.
Returns the response entity and the store after the commit. -/
def criar_produto (produto : ProdutoCreate) (db : DB) : Produto × DB :=
  let novo : Produto :=
    { id := nextId db.rows
      nome := produto.nome
      preco := produto.preco
      estoque := produto.estoque }
  (novo, ⟨db.rows ++ [novo]⟩)

/-- Handler `listar_produtos` of `main.py`:
`db.query(models.Produto).all()` — every row of the table, in storage
order.  Returns the response and the store after the request. -/
def listar_produtos (db : DB) : List Produto × DB :=
  (db.rows, db)

/-- Handler `obter_produto` of `main.py`: look the row up by id; raise
`HTTPException(404, "Produto não encontrado")` if absent, else return it.
Returns the outcome and the store after the request. -/
def obter_produto (produto_id : Int) (db : DB) :
    Except HTTPException Produto × DB :=
  match findProduto produto_id db with
  | none => (.error ⟨404, "Produto não encontrado"⟩, db)
  | some produto => (.ok produto, db)

/-- Handler `atualizar_produto` of `main.py`: look the row up by id; 404 if
absent; otherwise `setattr` every field of the payload (`nome`, `preco`,
`estoque`) onto the row, commit, refresh, return the updated entity. -/
def atualizar_produto (produto_id : Int) (dados : ProdutoCreate) (db : DB) :
    Except HTTPException Produto × DB :=
  match findProduto produto_id db with
  | none => (.error ⟨404, "Produto não encontrado"⟩, db)
  | some produto =>
      let updated : Produto :=
        { produto with
            nome := dados.nome
            preco := dados.preco
            estoque := dados.estoque }
      (.ok updated,
        ⟨db.rows.map (fun r => if r.id == produto_id then updated else r)⟩)

/-- Handler `deletar_produto` of `main.py`: look the row up by id; 404 if
absent; otherwise delete the row, commit, and return the fixed
acknowledgment `{"mensagem": "Produto deletado com sucesso"}`. -/
def deletar_produto (produto_id : Int) (db : DB) :
    Except HTTPException MensagemResposta × DB :=
  match findProduto produto_id db with
  | none => (.error ⟨404, "Produto não encontrado"⟩, db)
  | some _ =>
      (.ok ⟨"Produto deletado com sucesso"⟩,
        ⟨db.rows.filter (fun r => !(r.id == produto_id))⟩)

/-- Iterated Create: issue `criar_produto` once per payload, left to right,
returning the created entities and the final store. -/
def criar_lote (ps : List ProdutoCreate) (db : DB) : List Produto × DB :=
  match ps with
  | [] => ([], db)
  | p :: rest =>
      let r := criar_produto p db
      let resto := criar_lote rest r.2
      (r.1 :: resto.1, resto.2)

/-- A database session as produced by `SessionLocal()` inside `get_db`: the
store handle together with whether the session is still open. -/
structure Session where
  db : DB
  isOpen : Bool

/-- `SessionLocal()`: open a fresh session on the store. -/
def sessionLocal (db : DB) : Session := ⟨db, true⟩

/-- `db.close()` in the `finally` clause of `get_db`. -/
def closeSession (s : Session) : Session := { s with isOpen := false }

/-- The dependency `get_db` of `main.py` wrapped around a route handler,
embedding the generator's try/yield/finally: open one session, hand it to
the handler, and run the `finally` close on each of the two exit paths —
normal return and raised `HTTPException`. -/
def get_db_scope {α : Type} (db : DB)
    (handler : Session → Except HTTPException α × Session) :
    Except HTTPException α × Session :=
  let s := sessionLocal db
  match handler s with
  | (.ok a, s') => (.ok a, closeSession s')
  | (.error e, s') => (.error e, closeSession s')

section Lemmas

lemma le_foldl_max (rows : List Produto) (a : Int) :
    a ≤ rows.foldl (fun m r => max m r.id) a := by
  induction rows generalizing a with
  | nil => simp
  | cons x xs ih => exact le_trans (le_max_left a x.id) (ih _)

lemma mem_le_foldl_max {rows : List Produto} {r : Produto} (h : r ∈ rows)
    (a : Int) : r.id ≤ rows.foldl (fun m x => max m x.id) a := by
  induction rows generalizing a with
  | nil => cases h
  | cons x xs ih =>
    cases h with
    | head => exact le_trans (le_max_right a r.id) (le_foldl_max xs _)
    | tail _ h' => exact ih h' _

lemma id_lt_nextId {db : DB} {r : Produto} (h : r ∈ db.rows) :
    r.id < nextId db.rows :=
  Int.lt_add_one_iff.mpr (mem_le_foldl_max h 0)

lemma find?_append_fresh (rows : List Produto) (novo : Produto)
    (h : ∀ r ∈ rows, r.id ≠ novo.id) :
    (rows ++ [novo]).find? (fun r => r.id == novo.id) = some novo := by
  induction rows with
  | nil => simp
  | cons x xs ih =>
    have hx : (x.id == novo.id) = false := by
      simp only [beq_eq_false_iff_ne, ne_eq]
      exact h x (List.mem_cons_self x xs)
    rw [List.cons_append]
    simp only [List.find?_cons, hx]
    exact ih (fun r hr => h r (List.mem_cons_of_mem _ hr))

lemma findProduto_after_create (p : ProdutoCreate) (db : DB) :
    findProduto (criar_produto p db).1.id (criar_produto p db).2 =
      some (criar_produto p db).1 := by
  apply find?_append_fresh
  intro r hr
  exact ne_of_lt (id_lt_nextId hr)

lemma find?_map_if {rows : List Produto} {pid : Int} (u : Produto)
    (hu : (u.id == pid) = true)
    (hex : (rows.find? (fun r => r.id == pid)).isSome) :
    (rows.map (fun r => if r.id == pid then u else r)).find?
        (fun r => r.id == pid) = some u := by
  induction rows with
  | nil => simp at hex
  | cons x xs ih =>
    rw [List.map_cons]
    by_cases hx : (x.id == pid) = true
    · rw [if_pos hx]
      simp only [List.find?_cons, hu]
    · rw [Bool.not_eq_true] at hx
      rw [if_neg (by simp [hx])]
      simp only [List.find?_cons, hx]
      apply ih
      simpa only [List.find?_cons, hx] using hex

lemma findProduto_eq_none_iff (pid : Int) (db : DB) :
    findProduto pid db = none ↔ ∀ r ∈ db.rows, r.id ≠ pid := by
  simp [findProduto, List.find?_eq_none]

lemma findProduto_some {pid : Int} {db : DB} {r : Produto}
    (h : findProduto pid db = some r) : r ∈ db.rows ∧ r.id = pid :=
  ⟨List.mem_of_find?_eq_some h, by simpa using List.find?_some h⟩

lemma findProduto_isSome {pid : Int} {db : DB}
    (h : ∃ r ∈ db.rows, r.id = pid) : (findProduto pid db).isSome := by
  simp only [findProduto, List.find?_isSome, beq_iff_eq]
  exact h

lemma criar_lote_spec (ps : List ProdutoCreate) (db : DB) :
    (criar_lote ps db).2.rows.length = db.rows.length + ps.length ∧
    (∀ x ∈ db.rows, x ∈ (criar_lote ps db).2.rows) ∧
    (∀ e ∈ (criar_lote ps db).1, e ∈ (criar_lote ps db).2.rows) := by
  induction ps generalizing db with
  | nil => simp [criar_lote]
  | cons p rest ih =>
    obtain ⟨h1, h2, h3⟩ := ih (criar_produto p db).2
    refine ⟨?_, ?_, ?_⟩
    · simp only [criar_lote, List.length_cons]
      rw [h1]
      simp only [criar_produto, List.length_append, List.length_cons,
        List.length_nil]
      omega
    · intro x hx
      simp only [criar_lote]
      exact h2 x (by simp [criar_produto, hx])
    · intro e he
      simp only [criar_lote, List.mem_cons] at he
      cases he with
      | inl he =>
        subst he
        exact h2 _ (by simp [criar_produto])
      | inr he => exact h3 e he

lemma obter_none {pid : Int} {db : DB} (h : findProduto pid db = none) :
    obter_produto pid db = (.error ⟨404, "Produto não encontrado"⟩, db) := by
  simp only [obter_produto, h]

lemma atualizar_none {pid : Int} {dados : ProdutoCreate} {db : DB}
    (h : findProduto pid db = none) :
    atualizar_produto pid dados db =
      (.error ⟨404, "Produto não encontrado"⟩, db) := by
  simp only [atualizar_produto, h]

lemma deletar_none {pid : Int} {db : DB} (h : findProduto pid db = none) :
    deletar_produto pid db =
      (.error ⟨404, "Produto não encontrado"⟩, db) := by
  simp only [deletar_produto, h]

end Lemmas

/-- C1: for every valid payload (any `nome`, `preco` and `estoque`, with
negative values included), creating a Produto and then issuing Get-by-id on
the id returned by Create succeeds and yields an entity whose `nome`,
`preco` and `estoque` equal the payload's. -/
theorem C1_create_then_get (p : ProdutoCreate) (db : DB) :
    (obter_produto (criar_produto p db).1.id (criar_produto p db).2).1 =
        .ok (criar_produto p db).1 ∧
    (criar_produto p db).1.nome = p.nome ∧
    (criar_produto p db).1.preco = p.preco ∧
    (criar_produto p db).1.estoque = p.estoque := by
  refine ⟨?_, rfl, rfl, rfl⟩
  simp only [obter_produto, findProduto_after_create]

/-- C3: for each of Get-by-id, Update and Delete, the call fails with
HTTP 404 "Produto não encontrado" exactly when no row of the store has the
addressed id; existence of a matching row is the sole condition governing
the outcome. -/
theorem C3_notfound_iff_absent (db : DB) (pid : Int) :
    (((obter_produto pid db).1 = .error ⟨404, "Produto não encontrado"⟩) ↔
        ∀ r ∈ db.rows, r.id ≠ pid) ∧
    (∀ dados : ProdutoCreate,
      ((atualizar_produto pid dados db).1 =
          .error ⟨404, "Produto não encontrado"⟩) ↔
        ∀ r ∈ db.rows, r.id ≠ pid) ∧
    (((deletar_produto pid db).1 = .error ⟨404, "Produto não encontrado"⟩) ↔
        ∀ r ∈ db.rows, r.id ≠ pid) := by
  cases h : findProduto pid db with
  | none =>
    have hn := (findProduto_eq_none_iff pid db).mp h
    simp only [obter_produto, atualizar_produto, deletar_produto, h]
    simp only [ne_eq] at hn
    simp only [eq_self_iff_true, true_iff]
    exact ⟨hn, fun _ => hn, hn⟩
  | some r =>
    obtain ⟨hmem, hid⟩ := findProduto_some h
    have hn : ¬ ∀ r' ∈ db.rows, r'.id ≠ pid := fun hall => hall r hmem hid
    simp [obter_produto, atualizar_produto, deletar_produto, h, hn]

/-- C5: List returns exactly the rows of the table; consequently, creating
N products on top of any store yields a List result of the old size plus N
that contains every one of the created entities (and every pre-existing
row). -/
theorem C5_list_returns_all (db : DB) (ps : List ProdutoCreate) :
    (listar_produtos db).1 = db.rows ∧
    ((listar_produtos (criar_lote ps db).2).1).length
        = db.rows.length + ps.length ∧
    (∀ e ∈ (criar_lote ps db).1, e ∈ (listar_produtos (criar_lote ps db).2).1) ∧
    (∀ x ∈ db.rows, x ∈ (listar_produtos (criar_lote ps db).2).1) := by
  obtain ⟨h1, h2, h3⟩ := criar_lote_spec ps db
  exact ⟨rfl, h1, h3, h2⟩

/-- C8: from an empty store, a Create with payload
`{"nome": "Caneta", "preco": 2.5, "estoque": 100}` returns exactly the body
`{"id": 1, "nome": "Caneta", "preco": 2.5, "estoque": 100}`: the first
product ever created is assigned id 1. -/
theorem C8_first_create_id_one :
    (criar_produto ⟨"Caneta", 2.5, 100⟩ ⟨[]⟩).1 =
      ⟨1, "Caneta", 2.5, 100⟩ := by
  rfl

/-- C9: each request opens exactly one session before the handler runs, the
session is closed on both exit paths of the handler (normal return and
raised HTTPException), and closing does not alter the handler's outcome. -/
theorem C9_session_always_closed {α : Type} (db : DB)
    (handler : Session → Except HTTPException α × Session) :
    (sessionLocal db).isOpen = true ∧
    ((get_db_scope db handler).2).isOpen = false ∧
    (get_db_scope db handler).1 = (handler (sessionLocal db)).1 := by
  refine ⟨rfl, ?_, ?_⟩ <;>
  · rcases h : handler (sessionLocal db) with ⟨r, s'⟩
    simp only [get_db_scope]
    rw [h]
    cases r <;> rfl

/-- C10: the two read operations are pure with respect to the store: List,
and Get-by-id whether it finds the row or raises Not-Found, leave the store
exactly as it was. -/
theorem C10_reads_are_pure (db : DB) (pid : Int) :
    (listar_produtos db).2 = db ∧ (obter_produto pid db).2 = db := by
  refine ⟨rfl, ?_⟩
  cases h : findProduto pid db <;> simp [obter_produto, h]

/-- C2: when the store holds a row with the addressed id, Update returns
the updated entity whose three data fields equal the payload's, a
subsequent Get on the id sees exactly the new field values, every row of
the resulting store carrying the addressed id has the new field values (no
old value is retrievable), and rows with other ids are untouched. -/
theorem C2_update_is_full_replace (db : DB) (pid : Int)
    (dados : ProdutoCreate) (h : ∃ r ∈ db.rows, r.id = pid) :
    (∃ e, (atualizar_produto pid dados db).1 = .ok e ∧ e.id = pid ∧
        e.nome = dados.nome ∧ e.preco = dados.preco ∧
        e.estoque = dados.estoque) ∧
    (obter_produto pid (atualizar_produto pid dados db).2).1 =
        .ok ⟨pid, dados.nome, dados.preco, dados.estoque⟩ ∧
    (∀ r' ∈ ((atualizar_produto pid dados db).2).rows, r'.id = pid →
        r'.nome = dados.nome ∧ r'.preco = dados.preco ∧
        r'.estoque = dados.estoque) ∧
    (∀ r' ∈ db.rows, r'.id ≠ pid →
        r' ∈ ((atualizar_produto pid dados db).2).rows) := by
  have hs : (db.rows.find? (fun x => x.id == pid)).isSome :=
    findProduto_isSome h
  obtain ⟨r, hr⟩ := Option.isSome_iff_exists.mp hs
  have hr' : findProduto pid db = some r := hr
  have hid : r.id = pid := (findProduto_some hr').2
  have h1 : (atualizar_produto pid dados db).1 =
      .ok (⟨r.id, dados.nome, dados.preco, dados.estoque⟩ : Produto) := by
    simp only [atualizar_produto, hr']
  have hrows : ((atualizar_produto pid dados db).2).rows
      = db.rows.map (fun x => if x.id == pid
          then (⟨r.id, dados.nome, dados.preco, dados.estoque⟩ : Produto)
          else x) := by
    simp only [atualizar_produto, hr']
  refine ⟨⟨⟨r.id, dados.nome, dados.preco, dados.estoque⟩, h1, hid,
      rfl, rfl, rfl⟩, ?_, ?_, ?_⟩
  · have hfind : findProduto pid (atualizar_produto pid dados db).2
        = some (⟨r.id, dados.nome, dados.preco, dados.estoque⟩ : Produto) := by
      show ((atualizar_produto pid dados db).2).rows.find?
          (fun x => x.id == pid) = _
      rw [hrows]
      exact find?_map_if _ (by simpa using hid) hs
    simp only [obter_produto, hfind, hid]
  · intro r' hm hidr
    rw [hrows] at hm
    obtain ⟨x, hx, hfx⟩ := List.mem_map.mp hm
    by_cases hxp : (x.id == pid) = true
    · rw [if_pos hxp] at hfx
      rw [← hfx]
      exact ⟨rfl, rfl, rfl⟩
    · rw [if_neg hxp] at hfx
      rw [← hfx] at hidr
      exact absurd hidr (by simpa using hxp)
  · intro r' hm hne
    rw [hrows]
    refine List.mem_map.mpr ⟨r', hm, ?_⟩
    rw [if_neg (by simpa using hne)]

/-- Witness for C2: updating product 1 of a one-row store with the spec's
concrete PUT payload, then reading id 1, yields the new field values. -/
theorem C2_update_is_full_replace_witness :
    (obter_produto 1 (atualizar_produto 1 ⟨"Caneta Azul", 3, 90⟩
        ⟨[⟨1, "Caneta", 2.5, 100⟩]⟩).2).1 =
      .ok ⟨1, "Caneta Azul", 3, 90⟩ :=
  (C2_update_is_full_replace ⟨[⟨1, "Caneta", 2.5, 100⟩]⟩ 1
    ⟨"Caneta Azul", 3, 90⟩ ⟨⟨1, "Caneta", 2.5, 100⟩, by simp, rfl⟩).2.1

/-- C4: when the store holds a row with the addressed id, Delete returns
exactly the fixed acknowledgment body, no row with that id remains, and
both a subsequent Get and a second Delete on the same id return the 404
Not-Found error. -/
theorem C4_delete_removes_row (db : DB) (pid : Int)
    (h : ∃ r ∈ db.rows, r.id = pid) :
    (deletar_produto pid db).1 = .ok ⟨"Produto deletado com sucesso"⟩ ∧
    (∀ r' ∈ ((deletar_produto pid db).2).rows, r'.id ≠ pid) ∧
    (obter_produto pid (deletar_produto pid db).2).1 =
        .error ⟨404, "Produto não encontrado"⟩ ∧
    (deletar_produto pid (deletar_produto pid db).2).1 =
        .error ⟨404, "Produto não encontrado"⟩ := by
  have hs : (db.rows.find? (fun x => x.id == pid)).isSome :=
    findProduto_isSome h
  obtain ⟨r, hr⟩ := Option.isSome_iff_exists.mp hs
  have hr' : findProduto pid db = some r := hr
  have hrows : ((deletar_produto pid db).2).rows
      = db.rows.filter (fun x => !(x.id == pid)) := by
    simp only [deletar_produto, hr']
  have hgone : ∀ r' ∈ ((deletar_produto pid db).2).rows, r'.id ≠ pid := by
    intro r' hm
    rw [hrows] at hm
    have := (List.mem_filter.mp hm).2
    simpa using this
  have hnone : findProduto pid (deletar_produto pid db).2 = none :=
    (findProduto_eq_none_iff _ _).mpr hgone
  refine ⟨?_, hgone, ?_, ?_⟩
  · simp only [deletar_produto, hr']
  · rw [obter_none hnone]
  · rw [deletar_none hnone]

/-- Witness for C4: deleting product 1 of a one-row store returns the fixed
acknowledgment body. -/
theorem C4_delete_removes_row_witness :
    (deletar_produto 1 ⟨[⟨1, "Caneta", 2.5, 100⟩]⟩).1 =
      .ok ⟨"Produto deletado com sucesso"⟩ :=
  (C4_delete_removes_row ⟨[⟨1, "Caneta", 2.5, 100⟩]⟩ 1
    ⟨⟨1, "Caneta", 2.5, 100⟩, by simp, rfl⟩).1

/-- C6: updating an id with no matching row returns the 404 Not-Found error
and leaves the store exactly unchanged: no row created, no row modified. -/
theorem C6_update_missing_store_unchanged (db : DB) (pid : Int)
    (dados : ProdutoCreate) (h : ∀ r ∈ db.rows, r.id ≠ pid) :
    (atualizar_produto pid dados db).1 =
        .error ⟨404, "Produto não encontrado"⟩ ∧
    (atualizar_produto pid dados db).2 = db := by
  rw [atualizar_none ((findProduto_eq_none_iff pid db).mpr h)]
  exact ⟨rfl, rfl⟩

/-- Witness for C6: updating id 999999 on the empty store errors with 404
and leaves the store empty. -/
theorem C6_update_missing_store_unchanged_witness :
    (atualizar_produto 999999 ⟨"X", 1, 1⟩ ⟨[]⟩).1 =
        .error ⟨404, "Produto não encontrado"⟩ ∧
    (atualizar_produto 999999 ⟨"X", 1, 1⟩ ⟨[]⟩).2 = ⟨[]⟩ :=
  C6_update_missing_store_unchanged ⟨[]⟩ 999999 ⟨"X", 1, 1⟩ (by simp)

/-- C7: ids are assigned only at creation and never change: Update (whose
payload carries no id) preserves the id column of the store pointwise, an
entity returned by a successful Update carries the addressed id, and
Create assigns an id not already present in the store. -/
theorem C7_id_assigned_once (db : DB) (pid : Int) (dados : ProdutoCreate) :
    ((atualizar_produto pid dados db).2).rows.map Produto.id
        = db.rows.map Produto.id ∧
    (∀ e, (atualizar_produto pid dados db).1 = .ok e → e.id = pid) ∧
    (∀ p : ProdutoCreate,
        (criar_produto p db).1.id ∉ db.rows.map Produto.id) := by
  refine ⟨?_, ?_, ?_⟩
  · cases hr : findProduto pid db with
    | none => rw [atualizar_none hr]
    | some r =>
      have hid : r.id = pid := (findProduto_some hr).2
      have hrows : ((atualizar_produto pid dados db).2).rows
          = db.rows.map (fun x => if x.id == pid
              then (⟨r.id, dados.nome, dados.preco, dados.estoque⟩ : Produto)
              else x) := by
        simp only [atualizar_produto, hr]
      rw [hrows, List.map_map]
      apply List.map_congr_left
      intro x hx
      simp only [Function.comp_apply]
      by_cases hxp : (x.id == pid) = true
      · rw [if_pos hxp]
        have hxid : x.id = pid := by simpa using hxp
        show r.id = x.id
        rw [hid, hxid]
      · rw [if_neg hxp]
  · cases hr : findProduto pid db with
    | none =>
      intro e he
      rw [atualizar_none hr] at he
      exact absurd he (by simp)
    | some r =>
      intro e he
      have h1 : (atualizar_produto pid dados db).1 =
          .ok (⟨r.id, dados.nome, dados.preco, dados.estoque⟩ : Produto) := by
        simp only [atualizar_produto, hr]
      rw [h1] at he
      obtain rfl : (⟨r.id, dados.nome, dados.preco, dados.estoque⟩ : Produto)
          = e := by injection he
      exact (findProduto_some hr).2
  · intro p hmem
    obtain ⟨x, hx, hxe⟩ := List.mem_map.mp hmem
    exact absurd hxe (ne_of_lt (id_lt_nextId hx))

/-- Witness for C7: the entity returned by updating product 1 carries
id 1. -/
theorem C7_id_assigned_once_witness :
    ((⟨1, "Caneta Azul", 3, 90⟩ : Produto)).id = 1 :=
  (C7_id_assigned_once ⟨[⟨1, "Caneta", 2.5, 100⟩]⟩ 1
    ⟨"Caneta Azul", 3, 90⟩).2.1 ⟨1, "Caneta Azul", 3, 90⟩ (by rfl)

end FastApiProdutos
